import Mathlib

/-!
Verification of the message-handling subsystem of `resolve-scripts`
(`external_scripts/message_handling.py`): the `LoggerGenerator` and
`MessageHandlingObject` classes.

The embedding is shallow.  The Python `logging` backend is modelled by an
explicit registry state (`logging.LogState`): loggers are registry entries
keyed by name (so a logger reference is its registry name — the backend's
`getLogger` returns the same object for the same name), and file handlers
are entries of a list indexed by creation order (a handler reference is its
index, so object identity is index equality).  Fallible code returns
`Except PyError`.  Side effects of the message-dispatch operations
(console writes, log records, process warnings, lock acquire/release) are
modelled as an explicit event trace.
-/

/-- Python truthiness of an optional string: `None` and `""` are falsy. -/
def pyTruthy : Option String → Bool
  | none => false
  | some s => !(s == "")

/-- Python's `str.lower()`, restricted to the ASCII lowering the level
keywords need (character-wise `Char.toLower` — kernel-evaluable, unlike
`String.toLower`). -/
def pyLower (s : String) : String := ⟨s.data.map Char.toLower⟩

namespace logging

/-- Constant `logging.NOTSET`. -/
def NOTSET : Nat := 0
/-- Constant `logging.DEBUG`. -/
def DEBUG : Nat := 10
/-- Constant `logging.INFO`. -/
def INFO : Nat := 20
/-- Constant `logging.WARNING`. -/
def WARNING : Nat := 30
/-- Constant `logging.ERROR`. -/
def ERROR : Nat := 40
/-- Constant `logging.CRITICAL`. -/
def CRITICAL : Nat := 50

/-- State of one registered `logging.Logger`: its severity threshold and the
handlers attached to it (handler references, in attachment order). -/
structure LoggerState where
  level : Nat
  handlers : List Nat
deriving DecidableEq

/-- State of one `logging.FileHandler`: its destination path, its severity
threshold, and the formatter attached to it (a format string), if any. -/
structure HandlerState where
  path : String
  level : Nat
  formatter : Option String
deriving DecidableEq

/-- State of the `logging` backend: the process-wide name-keyed logger
registry, and every `FileHandler` created so far (a handler reference is its
index into `handlers`). -/
structure LogState where
  loggers : List (String × LoggerState)
  handlers : List HandlerState
deriving DecidableEq

/-- The empty backend state (no loggers registered, no handlers created). -/
def LogState.empty : LogState := ⟨[], []⟩

/-- Look a logger up in the registry by name. -/
def lookupLogger : List (String × LoggerState) → String → Option LoggerState
  | [], _ => none
  | p :: rest, n => if p.1 = n then some p.2 else lookupLogger rest n

/-- Update every registry entry of the given name in place. -/
def updateLoggers : List (String × LoggerState) → String →
    (LoggerState → LoggerState) → List (String × LoggerState)
  | [], _, _ => []
  | p :: rest, n, f => (if p.1 = n then (p.1, f p.2) else p) :: updateLoggers rest n f

/-- Update the element at one index of a list in place. -/
def setIdx : List α → Nat → (α → α) → List α
  | [], _, _ => []
  | a :: l, 0, f => f a :: l
  | a :: l, n + 1, f => a :: setIdx l n f

/-- The logger registered under `name` in state `s`. -/
def LogState.logger (s : LogState) (name : String) : Option LoggerState :=
  lookupLogger s.loggers name

/-- The handler referenced by index `h` in state `s`. -/
def LogState.handler (s : LogState) (h : Nat) : Option HandlerState :=
  s.handlers[h]?

/-- Model of `logging.getLogger(name)`: return the logger registered under `name`,
registering a fresh one (threshold `NOTSET`, no handlers) on first use.
The returned reference is the name itself (registry semantics: the same
name always resolves to the identical logger). -/
def getLogger (name : String) (s : LogState) : String × LogState :=
  match lookupLogger s.loggers name with
  | some _ => (name, s)
  | none => (name, { s with loggers := s.loggers ++ [(name, ⟨NOTSET, []⟩)] })

/-- Model of `logging.FileHandler(path)`: create a fresh handler bound to `path`
(threshold `NOTSET`, no formatter) and return its reference. -/
def newFileHandler (path : String) (s : LogState) : Nat × LogState :=
  (s.handlers.length, { s with handlers := s.handlers ++ [⟨path, NOTSET, none⟩] })

/-- Model of `Logger.setLevel(level)` on the logger named `name`. -/
def loggerSetLevel (name : String) (lvl : Nat) (s : LogState) : LogState :=
  { s with loggers := updateLoggers s.loggers name (fun ls => { ls with level := lvl }) }

/-- Model of `Handler.setLevel(level)` on the handler referenced by `h`. -/
def handlerSetLevel (h : Nat) (lvl : Nat) (s : LogState) : LogState :=
  { s with handlers := setIdx s.handlers h (fun hs => { hs with level := lvl }) }

/-- Model of `Handler.setFormatter(Formatter(fmt))` on the handler referenced by `h`. -/
def handlerSetFormatter (h : Nat) (fmt : String) (s : LogState) : LogState :=
  { s with handlers := setIdx s.handlers h (fun hs => { hs with formatter := some fmt }) }

/-- Model of `Logger.addHandler(hdlr)` on the logger named `name`: the backend appends
`hdlr` unless this very handler object is already attached (CPython
deduplicates by object identity only, never by destination path). -/
def addHandler (name : String) (h : Nat) (s : LogState) : LogState :=
  let attach := fun (ls : LoggerState) =>
    if ls.handlers.contains h then ls else { ls with handlers := ls.handlers ++ [h] }
  { s with loggers := updateLoggers s.loggers name attach }

end logging

/-- A Python exception value, as far as this module distinguishes them:
`ValueError(msg)` (the only kind this module itself raises) or any other
error carrying a message. -/
inductive PyError where
  | valueError (msg : String)
  | other (msg : String)
deriving DecidableEq

/-- The `ValueError` raised by `MessageHandlingObject._init_logger` when both
logger-sourcing strategies are supplied (the spec's ConfigurationConflict). -/
def configurationConflict : PyError :=
  .valueError ("Must choose between providing an existing logger or specify " ++
    "itialization arguments. Cannot do both.")

/-- The `ValueError` raised by `LoggerGenerator._parse_logger_level` on an
unrecognized severity string (the spec's InvalidConfiguration). -/
def invalidConfiguration : PyError :=
  .valueError "Invalid option for logger level."

/-- The `LoggerGenerator` object: its logger reference (`self._logger`), its
handler reference (`self._handler`), and `self.default_format`. -/
structure LoggerGenerator where
  _logger : String
  _handler : Nat
  default_format : String
deriving DecidableEq

namespace LoggerGenerator

/-- The name a `LoggerGenerator` resolves for a falsy (`None` or `""`)
`logger_name`: `"messagehandler"`; a truthy name is kept. -/
def resolvedName (logger_name : Option String) : String :=
  match logger_name with
  | none => "messagehandler"
  | some n => if n = "" then "messagehandler" else n

/-- Model of `LoggerGenerator._create_logger`: resolve the logger name (falsy names —
`None` or `""` — fall back to `"messagehandler"`) through the backend
registry. -/
def _create_logger (logger_name : Option String) (s : logging.LogState) :
    String × logging.LogState :=
  logging.getLogger (resolvedName logger_name) s

/-- Model of `LoggerGenerator._create_file_handler`. -/
def _create_file_handler (log_filepath : String) (s : logging.LogState) :
    Nat × logging.LogState :=
  logging.newFileHandler log_filepath s

/-- Model of `LoggerGenerator.__init__(log_filepath, logger_name)`. -/
def init (log_filepath : String) (logger_name : Option String)
    (s : logging.LogState) : LoggerGenerator × logging.LogState :=
  let (lg, s1) := _create_logger logger_name s
  let (h, s2) := _create_file_handler log_filepath s1
  (⟨lg, h, "%(asctime)s:%(levelname)s:%(name)s:%(message)s"⟩, s2)

/-- Model of `LoggerGenerator._parse_logger_level(level_str)`: falsy input defaults to
`INFO`; otherwise a fixed case-insensitive mapping, any other string raising
`ValueError`. -/
def _parse_logger_level (level_str : Option String) : Except PyError Nat :=
  if !pyTruthy level_str then .ok logging.INFO
  else
    match level_str with
    | none => .ok logging.INFO
    | some s =>
      let l := pyLower s
      if l = "debug" then .ok logging.DEBUG
      else if l = "info" then .ok logging.INFO
      else if l = "warning" then .ok logging.WARNING
      else if l = "error" then .ok logging.ERROR
      else if l = "critical" ∨ l = "fatal" then .ok logging.CRITICAL
      else .error invalidConfiguration

/-- Model of `LoggerGenerator._set_logger_level(level_str)`: apply the parsed threshold
to both `self._logger` and `self._handler`. -/
def _set_logger_level (g : LoggerGenerator) (level_str : Option String)
    (s : logging.LogState) : Except PyError logging.LogState :=
  match _parse_logger_level level_str with
  | .error e => .error e
  | .ok lvl =>
    .ok (logging.handlerSetLevel g._handler lvl
          (logging.loggerSetLevel g._logger lvl s))

/-- The format string `_apply_formatting` settles on: the caller-supplied one
when truthy, else `self.default_format`. -/
def resolvedFormat (g : LoggerGenerator) (logger_format : Option String) : String :=
  if pyTruthy logger_format then logger_format.getD g.default_format
  else g.default_format

/-- Model of `LoggerGenerator._apply_formatting(logger_format)`: falsy format falls
back to `self.default_format`; the formatter is attached to the handler
only. -/
def _apply_formatting (g : LoggerGenerator) (logger_format : Option String)
    (s : logging.LogState) : logging.LogState :=
  logging.handlerSetFormatter g._handler (g.resolvedFormat logger_format) s

/-- Model of `LoggerGenerator.generate(logger_level, logger_format)`: set the level on
logger and handler, apply the formatting, attach the handler, return the
logger (reference). -/
def generate (g : LoggerGenerator) (logger_level logger_format : Option String)
    (s : logging.LogState) : Except PyError (String × logging.LogState) :=
  match g._set_logger_level logger_level s with
  | .error e => .error e
  | .ok s1 =>
    let s2 := g._apply_formatting logger_format s1
    let s3 := logging.addHandler g._logger g._handler s2
    .ok (g._logger, s3)

end LoggerGenerator

/-- An observable event of a message-dispatch operation: a console write
(`print`), a log record on the logger named `lg` (with severity and, for
`Logger.exception`, the exception), a process warning (`warnings.warn`), or
an acquire/release of the object's `_log_lock`. -/
inductive Ev where
  | console (msg : String)
  | log (lg : String) (lvl : Nat) (msg : String)
  | logExc (lg : String) (e : PyError)
  | warning (msg : String)
  | acquire
  | release
deriving DecidableEq

/-- The `MessageHandlingObject` fields (its `_log_lock` is represented only
through the `Ev.acquire`/`Ev.release` events of its traces). -/
structure MessageHandlingObject where
  _verbose : Bool
  _suppress_warnings : Bool
  _logger : Option String
  _use_threaded_log_locks : Bool
deriving DecidableEq

namespace MessageHandlingObject

/-- Model of `MessageHandlingObject._init_logger`: validation plus logger-sourcing
resolution.  The conflict test is `shared_logger is not None and
any([log_filepath, logger_name, logger_level, logger_format])` — a
truthiness test on the four parameters.  Resolution mirrors the source:
no shared logger and `log_filepath is None` means no logger; no shared
logger and a `log_filepath` (even `""`) builds a `LoggerGenerator` and
calls `generate`; otherwise the shared logger is returned as-is. -/
def _init_logger (log_filepath logger_name logger_level logger_format :
    Option String) (shared_logger : Option String) (s : logging.LogState) :
    Except PyError (Option String × logging.LogState) :=
  if shared_logger.isSome &&
      (pyTruthy log_filepath || pyTruthy logger_name ||
       pyTruthy logger_level || pyTruthy logger_format) then
    .error configurationConflict
  else if shared_logger.isNone then
    match log_filepath with
    | none => .ok (none, s)
    | some path =>
      let (g, s1) := LoggerGenerator.init path logger_name s
      match g.generate logger_level logger_format s1 with
      | .error e => .error e
      | .ok (lg, s2) => .ok (some lg, s2)
  else .ok (shared_logger, s)

/-- Model of `MessageHandlingObject.__init__`: store the flags, resolve the logger via
`_init_logger`, and initialize `_use_threaded_log_locks` to `False`. -/
def init (verbose : Bool := false) (suppress_warnings : Bool := false)
    (log_filepath : Option String := none) (logger_name : Option String := none)
    (logger_level : Option String := none) (logger_format : Option String := none)
    (shared_logger : Option String := none) (s : logging.LogState) :
    Except PyError (MessageHandlingObject × logging.LogState) :=
  match _init_logger log_filepath logger_name logger_level logger_format
      shared_logger s with
  | .error e => .error e
  | .ok (lg, s1) => .ok (⟨verbose, suppress_warnings, lg, false⟩, s1)

/-- Model of `MessageHandlingObject.set_logger`: replace `self._logger` with the result
of the identical `_init_logger` call. -/
def set_logger (o : MessageHandlingObject)
    (log_filepath : Option String := none) (logger_name : Option String := none)
    (logger_level : Option String := none) (logger_format : Option String := none)
    (shared_logger : Option String := none) (s : logging.LogState) :
    Except PyError (MessageHandlingObject × logging.LogState) :=
  match _init_logger log_filepath logger_name logger_level logger_format
      shared_logger s with
  | .error e => .error e
  | .ok (lg, s1) => .ok ({ o with _logger := lg }, s1)

/-- The `_locked_log_process` decorator: `locked = self._use_threaded_log_locks;
if locked: acquire; output = func(...); if locked: release; return output`.
A body is a trace of events plus `some e` when the body raised `e`; a raise
propagates out of the wrapper before the release statement is reached
(there is no `try`/`finally` in the source). -/
def _locked_log_process (flag : Bool) (body : List Ev × Option PyError) :
    List Ev × Option PyError :=
  let pre := if flag then [Ev.acquire] else []
  match body with
  | (evs, none) => (pre ++ evs ++ (if flag then [Ev.release] else []), none)
  | (evs, some e) => (pre ++ evs, some e)

/-- Body of `MessageHandlingObject._print`: console echo when `_verbose`,
then `Logger.info` when a logger is present.  Never raises. -/
def _print_body (o : MessageHandlingObject) (msg : String) : List Ev :=
  (if o._verbose then [Ev.console msg] else []) ++
  (match o._logger with
   | some lg => [Ev.log lg logging.INFO msg]
   | none => [])

/-- Model of `MessageHandlingObject._print` (decorated with `_locked_log_process`). -/
def _print (o : MessageHandlingObject) (msg : String) : List Ev × Option PyError :=
  _locked_log_process o._use_threaded_log_locks (o._print_body msg, none)

/-- Body of `MessageHandlingObject._warn`: `warnings.warn` unless suppressed,
then `Logger.warning` when a logger is present.  Never raises. -/
def _warn_body (o : MessageHandlingObject) (msg : String) : List Ev :=
  (if !o._suppress_warnings then [Ev.warning msg] else []) ++
  (match o._logger with
   | some lg => [Ev.log lg logging.WARNING msg]
   | none => [])

/-- Model of `MessageHandlingObject._warn` (decorated with `_locked_log_process`). -/
def _warn (o : MessageHandlingObject) (msg : String) : List Ev × Option PyError :=
  _locked_log_process o._use_threaded_log_locks (o._warn_body msg, none)

/-- Body of `MessageHandlingObject._raise`: `Logger.exception(error)` when a
logger is present, then `raise error` — the body always raises. -/
def _raise_body (o : MessageHandlingObject) (e : PyError) :
    List Ev × Option PyError :=
  ((match o._logger with
    | some lg => [Ev.logExc lg e]
    | none => []), some e)

/-- Model of `MessageHandlingObject._raise` (decorated with `_locked_log_process`). -/
def _raise (o : MessageHandlingObject) (e : PyError) : List Ev × Option PyError :=
  _locked_log_process o._use_threaded_log_locks (o._raise_body e)

end MessageHandlingObject

/-! ### Lemmas about the modelled `logging` backend -/

namespace logging

theorem lookupLogger_append (l₁ l₂ : List (String × LoggerState)) (n : String) :
    lookupLogger (l₁ ++ l₂) n =
      match lookupLogger l₁ n with
      | some v => some v
      | none => lookupLogger l₂ n := by
  induction l₁ with
  | nil => simp [lookupLogger]
  | cons p rest ih => by_cases h : p.1 = n <;> simp [lookupLogger, h, ih]

theorem lookupLogger_updateLoggers (l : List (String × LoggerState)) (n : String)
    (f : LoggerState → LoggerState) :
    lookupLogger (updateLoggers l n f) n = (lookupLogger l n).map f := by
  induction l with
  | nil => simp [lookupLogger, updateLoggers]
  | cons p rest ih => by_cases h : p.1 = n <;> simp [lookupLogger, updateLoggers, h, ih]

theorem setIdx_get_self (l : List α) (i : Nat) (f : α → α) :
    (setIdx l i f)[i]? = l[i]?.map f := by
  induction l generalizing i with
  | nil => simp [setIdx]
  | cons a rest ih =>
    cases i with
    | zero => simp [setIdx]
    | succ n => simp [setIdx, ih]

theorem setIdx_length (l : List α) (i : Nat) (f : α → α) :
    (setIdx l i f).length = l.length := by
  induction l generalizing i with
  | nil => rfl
  | cons a rest ih =>
    cases i with
    | zero => rfl
    | succ n => simp [setIdx, ih]

theorem get_concat_self (l : List α) (a : α) : (l ++ [a])[l.length]? = some a := by
  induction l with
  | nil => rfl
  | cons b rest ih => simp [ih]

/-- Lemma: `getLogger` leaves the handler table alone and returns the name as the
logger reference, registering a default logger on first use. -/
theorem getLogger_spec (n : String) (s : LogState) :
    (getLogger n s).1 = n ∧
    ((getLogger n s).2).handlers = s.handlers ∧
    ((getLogger n s).2).logger n = some ((s.logger n).getD ⟨NOTSET, []⟩) := by
  unfold getLogger LogState.logger
  cases h : lookupLogger s.loggers n with
  | some v => simp [h]
  | none => simp [h, lookupLogger_append, lookupLogger]

/-- The attachment step of `addHandler` never changes a logger's threshold. -/
theorem level_attach (h : Nat) (ls : LoggerState) :
    ((if ls.handlers.contains h then ls
      else { ls with handlers := ls.handlers ++ [h] }) : LoggerState).level = ls.level := by
  split <;> rfl

end logging

/-! ### Lemmas about `LoggerGenerator` -/

namespace LoggerGenerator

/-- What `__init__` produces: the resolved logger reference, a fresh handler
reference (the next free index), the handler table extended by the new
handler, and the resolved logger present in the registry. -/
theorem init_spec (path : String) (name : Option String) (s : logging.LogState) :
    (init path name s).1._logger = resolvedName name ∧
    (init path name s).1._handler = s.handlers.length ∧
    (init path name s).2.handlers = s.handlers ++ [⟨path, logging.NOTSET, none⟩] ∧
    (init path name s).2.logger (resolvedName name) =
      some ((s.logger (resolvedName name)).getD ⟨logging.NOTSET, []⟩) := by
  unfold init _create_logger _create_file_handler logging.newFileHandler
    logging.getLogger logging.LogState.logger
  cases h : logging.lookupLogger s.loggers (resolvedName name) with
  | some v => simp [h]
  | none => simp [h, logging.lookupLogger_append, logging.lookupLogger]

/-- What a successful `generate` call does, given the states of the
generator's logger and handler going in: the level is applied to both, the
formatter to the handler only, and the handler is appended to the logger's
handler list unless this very handler is already attached. -/
theorem generate_ok_spec (g : LoggerGenerator) (ll fmt : Option String)
    (s1 : logging.LogState) (lg : String) (s3 : logging.LogState)
    (d : logging.LoggerState) (h0 : logging.HandlerState)
    (hgen : g.generate ll fmt s1 = .ok (lg, s3))
    (hd : s1.logger g._logger = some d)
    (hh : s1.handler g._handler = some h0) :
    lg = g._logger ∧
    ∃ lvl, _parse_logger_level ll = .ok lvl ∧
      s3.logger g._logger = some
        (if d.handlers.contains g._handler then { d with level := lvl }
         else ⟨lvl, d.handlers ++ [g._handler]⟩) ∧
      s3.handler g._handler =
        some ⟨h0.path, lvl, some (g.resolvedFormat fmt)⟩ := by
  unfold generate _set_logger_level at hgen
  cases hp : _parse_logger_level ll with
  | error e => rw [hp] at hgen; exact absurd hgen (by simp)
  | ok lvl =>
    rw [hp] at hgen
    simp only [Except.ok.injEq, Prod.mk.injEq] at hgen
    obtain ⟨rfl, rfl⟩ := hgen
    refine ⟨rfl, lvl, rfl, ?_, ?_⟩
    · unfold logging.addHandler _apply_formatting logging.handlerSetFormatter
        logging.handlerSetLevel logging.loggerSetLevel logging.LogState.logger at *
      simp only [logging.lookupLogger_updateLoggers, hd]
      cases hc : d.handlers.contains g._handler <;> simp_all
    · unfold logging.addHandler _apply_formatting logging.handlerSetFormatter
        logging.handlerSetLevel logging.loggerSetLevel logging.LogState.handler at *
      simp [logging.setIdx_get_self, hh]

end LoggerGenerator

/-! ### Claim theorems -/

/-- C2: for every level string in `{debug, info, warning, error, critical,
fatal}`, compared case-insensitively, `generate` applies the corresponding
severity threshold (`critical` and `fatal` both mapping to `CRITICAL`) to
both the `Logger` and its `FileHandler`; an absent level defaults to `INFO`;
and for every other non-empty level string, `generate` fails with an
InvalidConfiguration error rather than falling back to a default. -/
theorem C2_level_mapping_applied_to_logger_and_handler :
    (LoggerGenerator._parse_logger_level none = .ok logging.INFO) ∧
    (∀ s : String, pyLower s = "debug" →
      LoggerGenerator._parse_logger_level (some s) = .ok logging.DEBUG) ∧
    (∀ s : String, pyLower s = "info" →
      LoggerGenerator._parse_logger_level (some s) = .ok logging.INFO) ∧
    (∀ s : String, pyLower s = "warning" →
      LoggerGenerator._parse_logger_level (some s) = .ok logging.WARNING) ∧
    (∀ s : String, pyLower s = "error" →
      LoggerGenerator._parse_logger_level (some s) = .ok logging.ERROR) ∧
    (∀ s : String, pyLower s = "critical" ∨ pyLower s = "fatal" →
      LoggerGenerator._parse_logger_level (some s) = .ok logging.CRITICAL) ∧
    (∀ s : String, s ≠ "" →
      pyLower s ∉ (["debug", "info", "warning", "error", "critical", "fatal"] : List String) →
      LoggerGenerator._parse_logger_level (some s) = .error invalidConfiguration) ∧
    (∀ (path : String) (name ll fmt : Option String) (st : logging.LogState)
        (lg : String) (s3 : logging.LogState),
      (LoggerGenerator.init path name st).1.generate ll fmt
          (LoggerGenerator.init path name st).2 = .ok (lg, s3) →
      ∃ lvl, LoggerGenerator._parse_logger_level ll = .ok lvl ∧
        (s3.logger lg).map logging.LoggerState.level = some lvl ∧
        (s3.handler (LoggerGenerator.init path name st).1._handler).map
          logging.HandlerState.level = some lvl) := by
  refine ⟨rfl, ?_, ?_, ?_, ?_, ?_, ?_, ?_⟩
  · intro s h
    have hne : s ≠ "" := by intro he; subst he; exact absurd h (by decide)
    simp [LoggerGenerator._parse_logger_level, pyTruthy, hne, h]
  · intro s h
    have hne : s ≠ "" := by intro he; subst he; exact absurd h (by decide)
    simp [LoggerGenerator._parse_logger_level, pyTruthy, hne, h]
  · intro s h
    have hne : s ≠ "" := by intro he; subst he; exact absurd h (by decide)
    simp [LoggerGenerator._parse_logger_level, pyTruthy, hne, h]
  · intro s h
    have hne : s ≠ "" := by intro he; subst he; exact absurd h (by decide)
    simp [LoggerGenerator._parse_logger_level, pyTruthy, hne, h]
  · intro s h
    have hne : s ≠ "" := by
      intro he; subst he
      rcases h with h | h
      · exact absurd h (by decide)
      · exact absurd h (by decide)
    rcases h with h | h <;> simp [LoggerGenerator._parse_logger_level, pyTruthy, hne, h]
  · intro s hne hmem
    simp only [List.mem_cons, List.not_mem_nil, or_false, not_or] at hmem
    obtain ⟨h1, h2, h3, h4, h5, h6⟩ := hmem
    simp [LoggerGenerator._parse_logger_level, pyTruthy, hne, h1, h2, h3, h4, h5, h6]
  · intro path name ll fmt st lg s3 hgen
    obtain ⟨hgl, hgh, hghs, hglog⟩ := LoggerGenerator.init_spec path name st
    have hd : (LoggerGenerator.init path name st).2.logger
        (LoggerGenerator.init path name st).1._logger =
        some ((st.logger (LoggerGenerator.resolvedName name)).getD ⟨logging.NOTSET, []⟩) := by
      rw [hgl]; exact hglog
    have hhd : (LoggerGenerator.init path name st).2.handler
        (LoggerGenerator.init path name st).1._handler =
        some ⟨path, logging.NOTSET, none⟩ := by
      unfold logging.LogState.handler
      rw [hgh, hghs]
      exact logging.get_concat_self _ _
    obtain ⟨hlgeq, lvl, hp, hlogger, hhandler⟩ :=
      LoggerGenerator.generate_ok_spec _ ll fmt _ lg s3 _ _ hgen hd hhd
    refine ⟨lvl, hp, ?_, ?_⟩
    · rw [hlgeq, hlogger]
      split <;> rfl
    · rw [hhandler]
      rfl

/-- Witness for C2 at concrete inputs: `"DeBuG"` maps to `DEBUG`, `"FATAL"`
to `CRITICAL`, `"bogus"` is rejected, and a concrete `generate` call applies
the parsed `ERROR` threshold to both the logger and its handler. -/
theorem C2_level_mapping_witness :
    LoggerGenerator._parse_logger_level (some "DeBuG") = .ok logging.DEBUG ∧
    LoggerGenerator._parse_logger_level (some "FATAL") = .ok logging.CRITICAL ∧
    LoggerGenerator._parse_logger_level (some "bogus") = .error invalidConfiguration ∧
    (∃ lvl, LoggerGenerator._parse_logger_level (some "error") = .ok lvl ∧
      ((⟨[("testing", ⟨40, [0]⟩)],
         [⟨"test.log", 40, some "%(asctime)s:%(levelname)s:%(name)s:%(message)s"⟩]⟩ :
         logging.LogState).logger "testing").map logging.LoggerState.level = some lvl ∧
      ((⟨[("testing", ⟨40, [0]⟩)],
         [⟨"test.log", 40, some "%(asctime)s:%(levelname)s:%(name)s:%(message)s"⟩]⟩ :
         logging.LogState).handler
           (LoggerGenerator.init "test.log" (some "testing") logging.LogState.empty).1._handler).map
        logging.HandlerState.level = some lvl) :=
  ⟨C2_level_mapping_applied_to_logger_and_handler.2.1 "DeBuG" (by decide),
   C2_level_mapping_applied_to_logger_and_handler.2.2.2.2.2.1 "FATAL" (Or.inr (by decide)),
   C2_level_mapping_applied_to_logger_and_handler.2.2.2.2.2.2.1 "bogus" (by decide) (by decide),
   C2_level_mapping_applied_to_logger_and_handler.2.2.2.2.2.2.2 "test.log" (some "testing")
     (some "error") none logging.LogState.empty "testing" _ rfl⟩

/-- C1: whenever `shared_logger` is provided together with any (truthy) value
of `log_filepath`, `logger_name`, `logger_level`, `logger_format` — whatever
the subset — construction and `set_logger` both fail with the
ConfigurationConflict error, and the validation rule is the identical
`_init_logger` check for both operations (they error in exactly the same
cases, with the same error). -/
theorem C1_shared_logger_conflict :
    (∀ (lf ln ll fmt : Option String) (L : String) (st : logging.LogState),
      (pyTruthy lf || pyTruthy ln || pyTruthy ll || pyTruthy fmt) = true →
      (∀ v sup : Bool,
        MessageHandlingObject.init v sup lf ln ll fmt (some L) st =
          .error configurationConflict) ∧
      (∀ o : MessageHandlingObject,
        o.set_logger lf ln ll fmt (some L) st = .error configurationConflict)) ∧
    (∀ (o : MessageHandlingObject) (v sup : Bool) (lf ln ll fmt sh : Option String)
        (st : logging.LogState) (e : PyError),
      MessageHandlingObject.init v sup lf ln ll fmt sh st = .error e ↔
        o.set_logger lf ln ll fmt sh st = .error e) := by
  constructor
  · intro lf ln ll fmt L st h
    constructor
    · intro v sup
      simp [MessageHandlingObject.init, MessageHandlingObject._init_logger, h]
    · intro o
      simp [MessageHandlingObject.set_logger, MessageHandlingObject._init_logger, h]
  · intro o v sup lf ln ll fmt sh st e
    cases hr : MessageHandlingObject._init_logger lf ln ll fmt sh st with
    | error e' => simp [MessageHandlingObject.init, MessageHandlingObject.set_logger, hr]
    | ok r => simp [MessageHandlingObject.init, MessageHandlingObject.set_logger, hr]

/-- Witness for C1: two different non-empty subsets of the four parameters
(`log_filepath` alone at construction; `logger_name` alone at `set_logger`)
both fail with the ConfigurationConflict error when a shared logger is also
given. -/
theorem C1_shared_logger_conflict_witness :
    MessageHandlingObject.init false false (some "log.txt") none none none
      (some "L") logging.LogState.empty = .error configurationConflict ∧
    MessageHandlingObject.set_logger ⟨false, false, none, false⟩ none
      (some "name") none none (some "L") logging.LogState.empty =
      .error configurationConflict :=
  ⟨(C1_shared_logger_conflict.1 (some "log.txt") none none none "L"
      logging.LogState.empty (by decide)).1 false false,
   (C1_shared_logger_conflict.1 none (some "name") none none "L"
      logging.LogState.empty (by decide)).2 ⟨false, false, none, false⟩⟩

/-- C10: the conflict check tests Python truthiness, not presence: when
`shared_logger` is given and each of the four generation parameters is
`None` or `""`, no ConfigurationConflict is raised and the shared logger is
adopted — at construction and at `set_logger` alike. -/
theorem C10_empty_string_params_treated_as_absent :
    ∀ (a b c d : Option String) (L : String) (st : logging.LogState),
      (a = none ∨ a = some "") → (b = none ∨ b = some "") →
      (c = none ∨ c = some "") → (d = none ∨ d = some "") →
      MessageHandlingObject._init_logger a b c d (some L) st = .ok (some L, st) ∧
      (∀ v sup : Bool,
        MessageHandlingObject.init v sup a b c d (some L) st =
          .ok (⟨v, sup, some L, false⟩, st)) ∧
      (∀ o : MessageHandlingObject,
        o.set_logger a b c d (some L) st = .ok ({ o with _logger := some L }, st)) := by
  intro a b c d L st ha hb hc hd
  have ha' : pyTruthy a = false := by rcases ha with rfl | rfl <;> rfl
  have hb' : pyTruthy b = false := by rcases hb with rfl | rfl <;> rfl
  have hc' : pyTruthy c = false := by rcases hc with rfl | rfl <;> rfl
  have hd' : pyTruthy d = false := by rcases hd with rfl | rfl <;> rfl
  have hil : MessageHandlingObject._init_logger a b c d (some L) st = .ok (some L, st) := by
    simp [MessageHandlingObject._init_logger, ha', hb', hc', hd']
  refine ⟨hil, ?_, ?_⟩
  · intro v sup
    simp [MessageHandlingObject.init, hil]
  · intro o
    simp [MessageHandlingObject.set_logger, hil]

/-- Witness for C10: `log_filepath=""` and `logger_level=""` supplied
alongside a shared logger are treated as absent — the shared logger is
adopted without error. -/
theorem C10_empty_string_params_witness :
    MessageHandlingObject._init_logger (some "") none (some "") none
      (some "shared") logging.LogState.empty = .ok (some "shared", logging.LogState.empty) ∧
    MessageHandlingObject.init true false (some "") none (some "") none
      (some "shared") logging.LogState.empty =
      .ok (⟨true, false, some "shared", false⟩, logging.LogState.empty) :=
  ⟨(C10_empty_string_params_treated_as_absent (some "") none (some "") none
      "shared" logging.LogState.empty (Or.inr rfl) (Or.inl rfl) (Or.inr rfl)
      (Or.inl rfl)).1,
   (C10_empty_string_params_treated_as_absent (some "") none (some "") none
      "shared" logging.LogState.empty (Or.inr rfl) (Or.inl rfl) (Or.inr rfl)
      (Or.inl rfl)).2.1 true false⟩

/-- C7: logger-sourcing resolution order.  A given `shared_logger` is adopted
as-is — the very same reference, with the backend state untouched (no copy),
so two `MessageHandlingObject`s given the same shared logger hold the
identical registry reference and hence write to the identical underlying
destination.  Otherwise a present `log_filepath` drives
`LoggerGenerator(log_filepath, logger_name).generate(logger_level,
logger_format)`, whose logger becomes the active one.  Otherwise the logger
is absent. -/
theorem C7_logger_sourcing_resolution :
    (∀ (L : String) (st : logging.LogState) (v sup : Bool),
      MessageHandlingObject.init v sup none none none none (some L) st =
        .ok (⟨v, sup, some L, false⟩, st)) ∧
    (∀ (L : String) (st st' s1 s2 : logging.LogState) (v1 sup1 v2 sup2 : Bool)
        (o1 o2 : MessageHandlingObject),
      MessageHandlingObject.init v1 sup1 none none none none (some L) st = .ok (o1, s1) →
      MessageHandlingObject.init v2 sup2 none none none none (some L) st' = .ok (o2, s2) →
      o1._logger = o2._logger ∧ o1._logger = some L ∧ s1 = st ∧ s2 = st') ∧
    (∀ (p : String) (ln ll fmt : Option String) (st : logging.LogState),
      MessageHandlingObject._init_logger (some p) ln ll fmt none st =
        ((LoggerGenerator.init p ln st).1.generate ll fmt
          (LoggerGenerator.init p ln st).2).map (fun r => (some r.1, r.2))) ∧
    (∀ (ln ll fmt : Option String) (st : logging.LogState),
      MessageHandlingObject._init_logger none ln ll fmt none st = .ok (none, st)) := by
  have hadopt : ∀ (L : String) (st : logging.LogState) (v sup : Bool),
      MessageHandlingObject.init v sup none none none none (some L) st =
        .ok (⟨v, sup, some L, false⟩, st) := by
    intro L st v sup
    rfl
  refine ⟨hadopt, ?_, ?_, ?_⟩
  · intro L st st' s1 s2 v1 sup1 v2 sup2 o1 o2 h1 h2
    rw [hadopt] at h1 h2
    simp only [Except.ok.injEq, Prod.mk.injEq] at h1 h2
    obtain ⟨rfl, rfl⟩ := h1
    obtain ⟨rfl, rfl⟩ := h2
    exact ⟨rfl, rfl, rfl, rfl⟩
  · intro p ln ll fmt st
    simp only [MessageHandlingObject._init_logger]
    cases hg : (LoggerGenerator.init p ln st).1.generate ll fmt
        (LoggerGenerator.init p ln st).2 with
    | error e => simp [hg, Except.map]
    | ok r => simp [hg, Except.map]
  · intro ln ll fmt st
    rfl

/-- Witness for C7: a shared logger is adopted unchanged; a `log_filepath`
drives a concrete `LoggerGenerator.generate` run; with neither, the logger is
absent even when `logger_level` is supplied. -/
theorem C7_logger_sourcing_witness :
    MessageHandlingObject.init true false none none none none (some "shared")
      logging.LogState.empty =
      .ok (⟨true, false, some "shared", false⟩, logging.LogState.empty) ∧
    MessageHandlingObject._init_logger (some "f.log") (some "n") none none none
      logging.LogState.empty =
      ((LoggerGenerator.init "f.log" (some "n") logging.LogState.empty).1.generate
        none none
        (LoggerGenerator.init "f.log" (some "n") logging.LogState.empty).2).map
        (fun r => (some r.1, r.2)) ∧
    MessageHandlingObject._init_logger none none (some "debug") none none
      logging.LogState.empty = .ok (none, logging.LogState.empty) ∧
    (⟨true, false, some "shared", false⟩ : MessageHandlingObject)._logger =
      (⟨false, true, some "shared", false⟩ : MessageHandlingObject)._logger :=
  ⟨C7_logger_sourcing_resolution.1 "shared" logging.LogState.empty true false,
   C7_logger_sourcing_resolution.2.2.1 "f.log" (some "n") none none
     logging.LogState.empty,
   C7_logger_sourcing_resolution.2.2.2 none (some "debug") none
     logging.LogState.empty,
   (C7_logger_sourcing_resolution.2.1 "shared" logging.LogState.empty
     logging.LogState.empty logging.LogState.empty logging.LogState.empty
     true false false true ⟨true, false, some "shared", false⟩
     ⟨false, true, some "shared", false⟩ rfl rfl).1⟩

/-- C3: `_raise(e)` always propagates `e` unchanged (it never swallows the
error); when a logger is present the trace ends in the ERROR-with-exception
record for `e` — recorded strictly before propagation completes, since the
trace is emitted before the wrapper returns the raised error; when no logger
is present the trace holds no log record at all (at most lock events). -/
theorem C3_raise_logs_then_propagates :
    ∀ (o : MessageHandlingObject) (e : PyError),
      (o._raise e).2 = some e ∧
      (∀ lg, o._logger = some lg →
        ∃ pre, (o._raise e).1 = pre ++ [Ev.logExc lg e]) ∧
      (o._logger = none →
        ∀ ev ∈ (o._raise e).1, ev = Ev.acquire ∨ ev = Ev.release) := by
  intro o e
  obtain ⟨v, sup, lgo, flag⟩ := o
  refine ⟨rfl, ?_, ?_⟩
  · intro lg hlg
    cases lgo with
    | none => exact Option.noConfusion hlg
    | some lg' =>
      cases Option.some.inj hlg
      cases flag
      · exact ⟨[], rfl⟩
      · exact ⟨[Ev.acquire], rfl⟩
  · intro hnone ev hev
    cases lgo with
    | some lg' => exact Option.noConfusion hnone
    | none =>
      cases flag <;>
        simp [MessageHandlingObject._raise, MessageHandlingObject._raise_body,
          MessageHandlingObject._locked_log_process] at hev
      exact Or.inl hev

/-- Witness for C3 at concrete inputs: with a logger the error is propagated
and the trace ends in the exception record; without one, the trace holds no
output events. -/
theorem C3_raise_witness :
    (MessageHandlingObject._raise ⟨false, false, some "L", false⟩ (.other "boom")).2 =
      some (.other "boom") ∧
    (∃ pre, (MessageHandlingObject._raise ⟨false, false, some "L", false⟩
      (.other "boom")).1 = pre ++ [Ev.logExc "L" (.other "boom")]) ∧
    (∀ ev ∈ (MessageHandlingObject._raise ⟨true, true, none, false⟩
      (.other "boom")).1, ev = Ev.acquire ∨ ev = Ev.release) :=
  ⟨(C3_raise_logs_then_propagates ⟨false, false, some "L", false⟩ (.other "boom")).1,
   (C3_raise_logs_then_propagates ⟨false, false, some "L", false⟩
     (.other "boom")).2.1 "L" rfl,
   (C3_raise_logs_then_propagates ⟨true, true, none, false⟩ (.other "boom")).2.2 rfl⟩

/-- C5: `_print(m)` never raises; the console line appears iff `verbose` is
set, the INFO log record appears iff a logger is present — the two branches
are independent — and with `verbose` unset and no logger the trace holds no
output events at all. -/
theorem C5_print_console_and_log_independent :
    ∀ (o : MessageHandlingObject) (m : String),
      (o._print m).2 = none ∧
      (Ev.console m ∈ (o._print m).1 ↔ o._verbose = true) ∧
      (∀ lg, Ev.log lg logging.INFO m ∈ (o._print m).1 ↔ o._logger = some lg) ∧
      (o._verbose = false → o._logger = none →
        ∀ ev ∈ (o._print m).1, ev = Ev.acquire ∨ ev = Ev.release) := by
  intro o m
  obtain ⟨v, sup, lgo, flag⟩ := o
  cases v <;> cases flag <;> cases lgo <;>
    simp [MessageHandlingObject._print, MessageHandlingObject._print_body,
      MessageHandlingObject._locked_log_process, eq_comm]

/-- Witness for C5 at concrete inputs: verbose with a logger produces both
events; silent with no logger produces no output events. -/
theorem C5_print_witness :
    (MessageHandlingObject._print ⟨true, false, some "L", false⟩ "Info text").2 = none ∧
    Ev.console "Info text" ∈
      (MessageHandlingObject._print ⟨true, false, some "L", false⟩ "Info text").1 ∧
    Ev.log "L" logging.INFO "Info text" ∈
      (MessageHandlingObject._print ⟨true, false, some "L", false⟩ "Info text").1 ∧
    (∀ ev ∈ (MessageHandlingObject._print ⟨false, false, none, false⟩ "x").1,
      ev = Ev.acquire ∨ ev = Ev.release) :=
  ⟨(C5_print_console_and_log_independent ⟨true, false, some "L", false⟩ "Info text").1,
   (C5_print_console_and_log_independent ⟨true, false, some "L", false⟩
     "Info text").2.1.mpr rfl,
   (C5_print_console_and_log_independent ⟨true, false, some "L", false⟩
     "Info text").2.2.1 "L" |>.mpr rfl,
   (C5_print_console_and_log_independent ⟨false, false, none, false⟩ "x").2.2.2
     rfl rfl⟩

/-- C6: `_warn(m)` never raises; the process warning appears iff
`suppress_warnings` is unset, the WARNING log record appears iff a logger is
present — independently of each other. -/
theorem C6_warn_suppression_and_log_independent :
    ∀ (o : MessageHandlingObject) (m : String),
      (o._warn m).2 = none ∧
      (Ev.warning m ∈ (o._warn m).1 ↔ o._suppress_warnings = false) ∧
      (∀ lg, Ev.log lg logging.WARNING m ∈ (o._warn m).1 ↔ o._logger = some lg) := by
  intro o m
  obtain ⟨v, sup, lgo, flag⟩ := o
  cases sup <;> cases flag <;> cases lgo <;>
    simp [MessageHandlingObject._warn, MessageHandlingObject._warn_body,
      MessageHandlingObject._locked_log_process, eq_comm]

/-- Witness for C6 at concrete inputs: with suppression on and a logger
present, no warning is raised but the WARNING record is still written; with
suppression off and no logger, the warning is raised. -/
theorem C6_warn_witness :
    Ev.warning "w" ∉
      (MessageHandlingObject._warn ⟨false, true, some "L", false⟩ "w").1 ∧
    Ev.log "L" logging.WARNING "w" ∈
      (MessageHandlingObject._warn ⟨false, true, some "L", false⟩ "w").1 ∧
    Ev.warning "w" ∈ (MessageHandlingObject._warn ⟨false, false, none, false⟩ "w").1 :=
  ⟨fun hmem => by
      have h := (C6_warn_suppression_and_log_independent
        ⟨false, true, some "L", false⟩ "w").2.1.mp hmem
      exact Bool.noConfusion h,
   (C6_warn_suppression_and_log_independent ⟨false, true, some "L", false⟩
     "w").2.2 "L" |>.mpr rfl,
   (C6_warn_suppression_and_log_independent ⟨false, false, none, false⟩
     "w").2.1.mpr rfl⟩

/-- C9: `_use_threaded_log_locks` is `False` on every freshly constructed
`MessageHandlingObject`, and when it is `True` every dispatch operation
(`_print`, `_warn`, `_raise`) opens its trace by acquiring the lock and
emits every body event while the lock is held (nothing in a body touches the
lock; for `_print`/`_warn` the release is the final event). -/
theorem C9_thread_safety_flag_default_and_lock_duration :
    (∀ (v sup : Bool) (lf ln ll fmt sh : Option String) (st : logging.LogState)
        (o : MessageHandlingObject) (s' : logging.LogState),
      MessageHandlingObject.init v sup lf ln ll fmt sh st = .ok (o, s') →
      o._use_threaded_log_locks = false) ∧
    (∀ (o : MessageHandlingObject) (m : String) (e : PyError),
      o._use_threaded_log_locks = true →
      (o._print m).1 = Ev.acquire :: (o._print_body m ++ [Ev.release]) ∧
      (o._warn m).1 = Ev.acquire :: (o._warn_body m ++ [Ev.release]) ∧
      (o._raise e).1 = Ev.acquire :: (o._raise_body e).1 ∧
      (∀ ev ∈ o._print_body m, ev ≠ Ev.acquire ∧ ev ≠ Ev.release) ∧
      (∀ ev ∈ o._warn_body m, ev ≠ Ev.acquire ∧ ev ≠ Ev.release) ∧
      (∀ ev ∈ (o._raise_body e).1, ev ≠ Ev.acquire ∧ ev ≠ Ev.release)) := by
  constructor
  · intro v sup lf ln ll fmt sh st o s' h
    cases hr : MessageHandlingObject._init_logger lf ln ll fmt sh st with
    | error e =>
      simp [MessageHandlingObject.init, hr] at h
    | ok r =>
      obtain ⟨lg, s1⟩ := r
      simp [MessageHandlingObject.init, hr] at h
      obtain ⟨h1, h2⟩ := h
      rw [← h1]
  · intro o m e hflag
    obtain ⟨v, sup, lgo, flag⟩ := o
    cases hflag
    refine ⟨?_, ?_, ?_, ?_, ?_, ?_⟩
    · simp [MessageHandlingObject._print, MessageHandlingObject._locked_log_process]
    · simp [MessageHandlingObject._warn, MessageHandlingObject._locked_log_process]
    · simp [MessageHandlingObject._raise, MessageHandlingObject._locked_log_process,
        MessageHandlingObject._raise_body]
    · intro ev hev
      cases v <;> cases lgo <;> simp_all [MessageHandlingObject._print_body]
      rcases hev with rfl | rfl <;> simp
    · intro ev hev
      cases sup <;> cases lgo <;> simp_all [MessageHandlingObject._warn_body]
      rcases hev with rfl | rfl <;> simp
    · intro ev hev
      cases lgo <;> simp_all [MessageHandlingObject._raise_body]

/-- Witness for C9 at concrete inputs: a fresh construction has the flag off;
with the flag on, `_print` and `_raise` traces open with the acquire. -/
theorem C9_thread_safety_flag_witness :
    (⟨false, false, none, false⟩ : MessageHandlingObject)._use_threaded_log_locks
      = false ∧
    (MessageHandlingObject._print ⟨true, false, some "L", true⟩ "m").1 =
      Ev.acquire ::
        (MessageHandlingObject._print_body ⟨true, false, some "L", true⟩ "m" ++
          [Ev.release]) ∧
    (MessageHandlingObject._raise ⟨true, false, some "L", true⟩ (.other "boom")).1 =
      Ev.acquire ::
        (MessageHandlingObject._raise_body ⟨true, false, some "L", true⟩
          (.other "boom")).1 :=
  ⟨C9_thread_safety_flag_default_and_lock_duration.1 false false none none none
     none none logging.LogState.empty ⟨false, false, none, false⟩
     logging.LogState.empty rfl,
   (C9_thread_safety_flag_default_and_lock_duration.2 ⟨true, false, some "L", true⟩
     "m" (.other "boom") rfl).1,
   (C9_thread_safety_flag_default_and_lock_duration.2 ⟨true, false, some "L", true⟩
     "m" (.other "boom") rfl).2.2.1⟩

/-- C4 (code bug exhibit): with thread-safety enabled, `_raise` acquires the
lock and then raises out of the wrapped call — `_locked_log_process` has no
`try`/`finally`, so the release statement after `func(...)` is never reached
on the error exit path: the trace holds the acquire and no release, while
`_print`, whose body returns normally, does release.  The lock therefore
stays held forever after the first `_raise` on a thread-safe object. -/
theorem C4_lock_not_released_when_wrapped_call_raises :
    (MessageHandlingObject._raise ⟨false, false, none, true⟩ (.other "An error")).1 =
      [Ev.acquire] ∧
    (MessageHandlingObject._raise ⟨false, false, none, true⟩ (.other "An error")).2 =
      some (.other "An error") ∧
    Ev.release ∉
      (MessageHandlingObject._raise ⟨false, false, none, true⟩ (.other "An error")).1 ∧
    Ev.release ∈ (MessageHandlingObject._print ⟨false, false, none, true⟩ "m").1 ∧
    Ev.release ∈ (MessageHandlingObject._warn ⟨false, false, none, true⟩ "m").1 := by
  refine ⟨rfl, rfl, ?_, ?_, ?_⟩ <;> decide

/-- The freshness invariant of the modelled backend: every handler reference
attached to a registered logger points into the handler table.  Every state
reachable through the modelled operations satisfies it; `generate` relies on
it only to know the fresh handler is not yet attached anywhere. -/
def logging.LogState.wf (s : logging.LogState) : Prop :=
  ∀ p ∈ s.loggers, ∀ h ∈ p.2.handlers, h < s.handlers.length

instance (s : logging.LogState) : Decidable s.wf := by
  unfold logging.LogState.wf
  infer_instance

/-- The handler references attached to the logger named `n` in state `s`
(empty when no such logger is registered). -/
def logging.attachedHandlers (s : logging.LogState) (n : String) : List Nat :=
  ((s.logger n).map logging.LoggerState.handlers).getD []

/-- A successful lookup comes from a registry entry under that very name. -/
theorem logging.lookupLogger_mem {l : List (String × logging.LoggerState)}
    {n : String} {v : logging.LoggerState} (h : logging.lookupLogger l n = some v) :
    (n, v) ∈ l := by
  induction l with
  | nil => exact Option.noConfusion h
  | cons p rest ih =>
    obtain ⟨k, v'⟩ := p
    by_cases hp : k = n
    · subst hp
      simp only [logging.lookupLogger, if_pos] at h
      cases h
      exact List.mem_cons_self _ _
    · simp only [logging.lookupLogger, hp, if_neg, not_false_iff] at h
      exact List.mem_cons_of_mem _ (ih h)

/-- C8: each `__init__`-plus-`generate` round attaches one more handler to
the target logger — a freshly created `FileHandler` instance, appended even
when a handler bound to the very same path is already attached under the
same logger name, since the backend deduplicates only by handler object
identity.  Repeated `generate` rounds against one destination therefore
accumulate duplicate handlers. -/
theorem C8_generate_accumulates_duplicate_handlers :
    ∀ (path : String) (name ll fmt : Option String) (st : logging.LogState)
      (lg : String) (s3 : logging.LogState),
      st.wf →
      (LoggerGenerator.init path name st).1.generate ll fmt
        (LoggerGenerator.init path name st).2 = .ok (lg, s3) →
      logging.attachedHandlers s3 lg =
        logging.attachedHandlers st lg ++
          [(LoggerGenerator.init path name st).1._handler] ∧
      (s3.handler (LoggerGenerator.init path name st).1._handler).map
        logging.HandlerState.path = some path := by
  intro path name ll fmt st lg s3 hwf hgen
  obtain ⟨hgl, hgh, hghs, hglog⟩ := LoggerGenerator.init_spec path name st
  have hd : (LoggerGenerator.init path name st).2.logger
      (LoggerGenerator.init path name st).1._logger =
      some ((st.logger (LoggerGenerator.resolvedName name)).getD
        ⟨logging.NOTSET, []⟩) := by
    rw [hgl]; exact hglog
  have hhd : (LoggerGenerator.init path name st).2.handler
      (LoggerGenerator.init path name st).1._handler =
      some ⟨path, logging.NOTSET, none⟩ := by
    unfold logging.LogState.handler
    rw [hgh, hghs]
    exact logging.get_concat_self _ _
  obtain ⟨hlgeq, lvl, hp, hlogger, hhandler⟩ :=
    LoggerGenerator.generate_ok_spec _ ll fmt _ lg s3 _ _ hgen hd hhd
  set d := (st.logger (LoggerGenerator.resolvedName name)).getD
    ⟨logging.NOTSET, []⟩ with hdd
  have hdh : d.handlers =
      ((st.logger (LoggerGenerator.resolvedName name)).map
        logging.LoggerState.handlers).getD [] := by
    cases hl : st.logger (LoggerGenerator.resolvedName name) <;> simp [hdd, hl]
  have hfresh : d.handlers.contains
      (LoggerGenerator.init path name st).1._handler = false := by
    cases hc : d.handlers.contains (LoggerGenerator.init path name st).1._handler
    · rfl
    · exfalso
      have hmem : (LoggerGenerator.init path name st).1._handler ∈ d.handlers := by
        simpa using hc
      cases hl : st.logger (LoggerGenerator.resolvedName name) with
      | none => rw [hdd] at hmem; simp [hl] at hmem
      | some x =>
        have hx : d = x := by rw [hdd, hl]; rfl
        have hbound := hwf (LoggerGenerator.resolvedName name, x)
          (logging.lookupLogger_mem hl) _ (hx ▸ hmem)
        rw [hgh] at hbound
        exact absurd hbound (by omega)
  refine ⟨?_, ?_⟩
  · rw [hlgeq, hgl]
    unfold logging.attachedHandlers
    rw [hgl] at hlogger
    rw [hlogger, hfresh]
    simp [hdh]
  · rw [hhandler]
    rfl

/-- Witness for C8: two `__init__`-plus-`generate` rounds against the same
`("dup.log", "dup")` destination leave the `"dup"` logger with two handlers,
both bound to `"dup.log"` — the second round appends a fresh handler even
though one with the identical path is already attached. -/
theorem C8_generate_accumulates_witness :
    logging.attachedHandlers
      ⟨[("dup", ⟨20, [0]⟩)],
       [⟨"dup.log", 20, some "%(asctime)s:%(levelname)s:%(name)s:%(message)s"⟩]⟩
      "dup" =
      logging.attachedHandlers logging.LogState.empty "dup" ++ [0] ∧
    logging.attachedHandlers
      ⟨[("dup", ⟨20, [0, 1]⟩)],
       [⟨"dup.log", 20, some "%(asctime)s:%(levelname)s:%(name)s:%(message)s"⟩,
        ⟨"dup.log", 20, some "%(asctime)s:%(levelname)s:%(name)s:%(message)s"⟩]⟩
      "dup" =
      logging.attachedHandlers
        ⟨[("dup", ⟨20, [0]⟩)],
         [⟨"dup.log", 20, some "%(asctime)s:%(levelname)s:%(name)s:%(message)s"⟩]⟩
        "dup" ++ [1] ∧
    ((⟨[("dup", ⟨20, [0, 1]⟩)],
       [⟨"dup.log", 20, some "%(asctime)s:%(levelname)s:%(name)s:%(message)s"⟩,
        ⟨"dup.log", 20, some "%(asctime)s:%(levelname)s:%(name)s:%(message)s"⟩]⟩ :
       logging.LogState).handler 1).map logging.HandlerState.path =
      some "dup.log" :=
  ⟨(C8_generate_accumulates_duplicate_handlers "dup.log" (some "dup") none none
      logging.LogState.empty "dup" _ (by decide) rfl).1,
   (C8_generate_accumulates_duplicate_handlers "dup.log" (some "dup") none none
      ⟨[("dup", ⟨20, [0]⟩)],
       [⟨"dup.log", 20, some "%(asctime)s:%(levelname)s:%(name)s:%(message)s"⟩]⟩
      "dup" _ (by decide) rfl).1,
   (C8_generate_accumulates_duplicate_handlers "dup.log" (some "dup") none none
      ⟨[("dup", ⟨20, [0]⟩)],
       [⟨"dup.log", 20, some "%(asctime)s:%(levelname)s:%(name)s:%(message)s"⟩]⟩
      "dup" _ (by decide) rfl).2⟩
